import Mathlib

/-!
# oraclepaas: database service instance resource

A shallow embedding of `oraclepaas/resource_database_service_instance.go`:
the create and read operations of the resource, the request mapper
(`expandParameter`, `expandIbkup`, `expandBackups`, `expandHDG`) and the
assignment block that mirrors a service instance record into the resource
data.

Conventions of the embedding.

* `schema.ResourceData` is a record with one field per top-level schema key
  plus the resource ID.  `d.Get("k").(T)` on a schema key `k` of type `T` is
  the field `d.k`; `d.GetOk("k")` reports `ok` exactly when the value is not
  the zero value of its type.
* A nested group (`TypeList` of `schema.Resource`) is a list of attribute
  records.  An attribute read with an unchecked assertion `attrs["k"].(T)` is
  a field of type `T`; an attribute read with the comma-ok form is an
  `Option T`, where `none` stands for `ok = false`.
* A Go function returning `(value, error)` returns a pair whose second
  component is `Option GoError` (`none` is the `nil` error).
* A run-time panic (index out of range, nil dereference) is an explicit
  outcome, never a missing case.
-/

namespace Oraclepaas

/-! ## Errors and outcomes -/

/-- A Go `error` value: its rendered message and whether
`opcClient.WasNotFoundError` recognises it. -/
structure GoError where
  msg : String
  notFound : Bool
deriving DecidableEq, Repr

/-- Go `fmt.Errorf` with the format already applied: a plain error, which is
not an `*opc.OracleError` and hence never a not-found error. -/
def fmtErrorf (msg : String) : GoError :=
  { msg := msg, notFound := false }

/-- The test `opcClient.WasNotFoundError`. -/
def WasNotFoundError (err : GoError) : Bool :=
  err.notFound

/-- Outcome of running a piece of Go code that may panic. -/
inductive Exec (α : Type) where
  | ret (a : α)
  | panic (reason : String)
deriving DecidableEq, Repr

/-! ## Constants of the `database` package -/

/-- Modelled from the spec: `database.ServiceInstanceLevelPAAS` is declared
in the SDK package `database`, outside these sources; the spec gives the
level as `"PAAS"`. -/
def ServiceInstanceLevelPAAS : String := "PAAS"

/-- Modelled from the spec: `database.ServiceInstanceBackupDestinationBoth`,
declared in the SDK package `database`; the spec and the error message of
`expandBackups` give it as `BOTH`. -/
def ServiceInstanceBackupDestinationBoth : String := "BOTH"

/-- Modelled from the spec: `database.ServiceInstanceBackupDestinationOSS`,
declared in the SDK package `database`; the spec and the error message of
`expandBackups` give it as `OSS`. -/
def ServiceInstanceBackupDestinationOSS : String := "OSS"

/-- Modelled from the spec: `database.ServiceInstanceLevelBasic`, the default
of `level`, declared in the SDK package `database`; the spec names the level
`Basic`, and the one use of the constant, in the validator of `level`, does
not depend on its case. -/
def ServiceInstanceLevelBasic : String := "BASIC"

/-- Modelled from the spec: `database.ServiceInstanceBackupDestinationNone`,
the default of `backup_destination`, declared in the SDK package `database`;
the spec gives it as `"NONE"`. -/
def ServiceInstanceBackupDestinationNone : String := "NONE"

/-! ## Configuration document -/

/-- Attributes of the single element of `database_configuration`. -/
structure DatabaseConfiguration where
  admin_password : String
  backup_destination : String
  character_set : String
  db_demo : Option String
  disaster_recovery : Bool
  failover_database : Bool
  golden_gate : Bool
  is_rac : Bool
  national_character_set : String
  pdb_name : String
  sid : String
  timezone : String
  type : String
  usable_storage : Int
  snapshot_name : Option String
  source_service_name : Option String
deriving DecidableEq, Repr

/-- Attributes of an element of `instantiate_from_backup`. -/
structure InstantiateFromBackup where
  cloud_storage_container : String
  cloud_storage_password : Option String
  cloud_storage_username : Option String
  database_id : String
  decryption_key : Option String
  on_premise : Bool
  service_id : Option String
  wallet_file_content : Option String
deriving DecidableEq, Repr

/-- Attributes of an element of `backups`. -/
structure Backups where
  cloud_storage_container : String
  cloud_storage_username : Option String
  cloud_storage_password : Option String
  create_if_missing : Bool
deriving DecidableEq, Repr

/-- Attributes of an element of `hybrid_disaster_recovery`. -/
structure HybridDisasterRecovery where
  cloud_storage_container : String
  cloud_storage_username : Option String
  cloud_storage_password : Option String
deriving DecidableEq, Repr

/-- The resource data `d`: the resource ID and one field per top-level key
of the schema of `resourceOPAASDatabaseServiceInstance`. -/
structure ResourceData where
  id : String
  name : String
  description : String
  edition : String
  level : String
  shape : String
  subscription_type : String
  version : String
  ssh_public_key : String
  database_configuration : List DatabaseConfiguration
  instantiate_from_backup : List InstantiateFromBackup
  backups : List Backups
  hybrid_disaster_recovery : List HybridDisasterRecovery
  region : String
  availability_domain : String
  ip_network : String
  ip_reservations : List String
  notification_email : String
  byol : Bool
  high_performance_storage : Bool
  subnet : String
  cloud_storage_container : String
  compute_site_name : String
  dbaas_monitor_url : String
  em_url : String
  glassfish_url : String
  identity_domain : String
  uri : String
deriving DecidableEq, Repr

/-! ## Request structures of the `database` package -/

/-- The struct `database.AdditionalParameters`, as far as the mapper fills it. -/
structure AdditionalParameters where
  DBDemo : String
deriving DecidableEq, Repr

/-- The struct `database.ParameterInput`, with the fields the mapper assigns. -/
structure ParameterInput where
  AdminPassword : String
  BackupDestination : String
  CharSet : String
  DisasterRecovery : Bool
  FailoverDatabase : Bool
  GoldenGate : Bool
  IsRAC : Bool
  NCharSet : String
  PDBName : String
  SID : String
  Timezone : String
  -- the Go field `Type`; the name is reserved in Lean
  Type_ : String
  UsableStorage : String
  SnapshotName : String
  SourceServiceName : String
  AdditionalParameters : AdditionalParameters
  IBKUP : Bool
  IBKUPDatabaseID : String
  IBKUPOnPremise : Bool
  IBKUPCloudStorageUser : String
  IBKUPCloudStoragePassword : String
  IBKUPDecryptionKey : String
  IBKUPServiceID : String
  IBKUPWalletFileContent : String
  CloudStorageContainer : String
  CreateStorageContainerIfMissing : Bool
  CloudStorageUsername : String
  CloudStoragePassword : String
  HDG : Bool
  HDGCloudStorageContainer : String
  HDGCloudStorageUser : String
  HDGCloudStoragePassword : String
deriving DecidableEq, Repr

/-- The zero value of `database.ParameterInput`. -/
def ParameterInput.zero : ParameterInput :=
  { AdminPassword := "", BackupDestination := "", CharSet := "",
    DisasterRecovery := false, FailoverDatabase := false, GoldenGate := false,
    IsRAC := false, NCharSet := "", PDBName := "", SID := "", Timezone := "",
    Type_ := "", UsableStorage := "", SnapshotName := "", SourceServiceName := "",
    AdditionalParameters := { DBDemo := "" },
    IBKUP := false, IBKUPDatabaseID := "", IBKUPOnPremise := false,
    IBKUPCloudStorageUser := "", IBKUPCloudStoragePassword := "",
    IBKUPDecryptionKey := "", IBKUPServiceID := "", IBKUPWalletFileContent := "",
    CloudStorageContainer := "", CreateStorageContainerIfMissing := false,
    CloudStorageUsername := "", CloudStoragePassword := "",
    HDG := false, HDGCloudStorageContainer := "", HDGCloudStorageUser := "",
    HDGCloudStoragePassword := "" }

/-- The struct `database.CreateServiceInstanceInput`, with the fields the create
operation assigns. -/
structure CreateServiceInstanceInput where
  Name : String
  Edition : String
  IPReservations : List String
  IsBYOL : Bool
  Level : String
  Shape : String
  SubscriptionType : String
  UseHighPerformanceStorage : Bool
  Version : String
  VMPublicKey : String
  Description : String
  EnableNotification : Bool
  NotificationEmail : String
  IPNetwork : String
  Region : String
  AvailabilityDomain : String
  Subnet : String
  Parameter : ParameterInput
deriving DecidableEq, Repr

/-- The struct `database.GetServiceInstanceInput`. -/
structure GetServiceInstanceInput where
  Name : String
deriving DecidableEq, Repr

/-- The struct `database.DeleteServiceInstanceInput`. -/
structure DeleteServiceInstanceInput where
  Name : String
deriving DecidableEq, Repr

/-- The struct `database.ServiceInstance`, with the fields the read operation
mirrors. -/
structure ServiceInstance where
  Name : String
  Region : String
  AvailabilityDomain : String
  Description : String
  BackupDestination : String
  CharSet : String
  CloudStorageContainer : String
  ComputeSiteName : String
  ConnectDescriptor : String
  DBAASMonitorURL : String
  Edition : String
  EMURL : String
  FailoverDatabase : Bool
  UseHighPerformanceStorage : Bool
  GlassFishURL : String
  IdentityDomain : String
  IPNetwork : String
  IsBYOL : Bool
  Level : String
  NCharSet : String
  PDBName : String
  URI : String
  Shape : String
  SID : String
  Subnet : String
  SubscriptionType : String
  Timezone : String
  Version : String
deriving DecidableEq, Repr

/-! ## The mapper -/

/-- The function `expandIbkup`: maps the `instantiate_from_backup` group into the
parameter (mutation of `*parameter` is the returned value). -/
def expandIbkup (d : ResourceData) (parameter : ParameterInput) : ParameterInput :=
  match d.instantiate_from_backup with
  | [] => parameter
  | attrs :: _ =>
    let parameter := { parameter with IBKUP := true }
    let parameter := { parameter with IBKUPDatabaseID := attrs.cloud_storage_container }
    let parameter := { parameter with IBKUPOnPremise := attrs.on_premise }
    let parameter :=
      match attrs.cloud_storage_username with
      | some val => { parameter with IBKUPCloudStorageUser := val }
      | none => parameter
    let parameter :=
      match attrs.cloud_storage_password with
      | some val => { parameter with IBKUPCloudStoragePassword := val }
      | none => parameter
    let parameter :=
      match attrs.decryption_key with
      | some val => { parameter with IBKUPDecryptionKey := val }
      | none => parameter
    let parameter :=
      match attrs.service_id with
      | some val => { parameter with IBKUPServiceID := val }
      | none => parameter
    let parameter :=
      match attrs.wallet_file_content with
      | some val => { parameter with IBKUPWalletFileContent := val }
      | none => parameter
    parameter

/-- The error raised by `expandBackups`. -/
def backupsRequiredError : GoError :=
  fmtErrorf "`backups` must be set if `backup_destination` is set to `OSS` or `BOTH`"

/-- The error raised by `expandHDG`. -/
def hdgExclusiveError : GoError :=
  fmtErrorf "`hybrid_disaster_recovery` cannot be set if `is_rac` or `failover_database` is set to true"

/-- The function `expandBackups`: the parameter as left by the call, and the returned
error. -/
def expandBackups (d : ResourceData) (parameter : ParameterInput) :
    ParameterInput × Option GoError :=
  let cloudStorageInfo := d.backups
  -- the two nested `if`s of the source, as one condition
  if (parameter.BackupDestination = ServiceInstanceBackupDestinationBoth
        ∨ parameter.BackupDestination = ServiceInstanceBackupDestinationOSS)
      ∧ cloudStorageInfo.length = 0 then
    (parameter, some backupsRequiredError)
  else
    match cloudStorageInfo with
    | [] => (parameter, none)
    | attrs :: _ =>
      let parameter := { parameter with CloudStorageContainer := attrs.cloud_storage_container }
      let parameter := { parameter with CreateStorageContainerIfMissing := attrs.create_if_missing }
      let parameter :=
        match attrs.cloud_storage_username with
        | some val => if val ≠ "" then { parameter with CloudStorageUsername := val } else parameter
        | none => parameter
      let parameter :=
        match attrs.cloud_storage_password with
        | some val => if val ≠ "" then { parameter with CloudStoragePassword := val } else parameter
        | none => parameter
      (parameter, none)

/-- The function `expandHDG`: the parameter as left by the call, and the returned
error. -/
def expandHDG (d : ResourceData) (parameter : ParameterInput) :
    ParameterInput × Option GoError :=
  match d.hybrid_disaster_recovery with
  | [] => (parameter, none)
  | attrs :: _ =>
    if parameter.FailoverDatabase = true ∨ parameter.IsRAC = true then
      (parameter, some hdgExclusiveError)
    else
      let parameter := { parameter with HDG := true }
      let parameter := { parameter with HDGCloudStorageContainer := attrs.cloud_storage_container }
      let parameter :=
        match attrs.cloud_storage_username with
        | some val => if val ≠ "" then { parameter with HDGCloudStorageUser := val } else parameter
        | none => parameter
      let parameter :=
        match attrs.cloud_storage_password with
        | some val => if val ≠ "" then { parameter with HDGCloudStoragePassword := val } else parameter
        | none => parameter
      (parameter, none)

/-- Go `strconv.Itoa`. -/
def Itoa (n : Int) : String :=
  toString n

/-- The `ParameterInput` literal of `expandParameter` followed by the
assignments of `snapshot_name`, `source_service_name` and `db_demo`: the
parameter as it stands before `expandIbkup` is called. -/
def parameterFromAttrs (attrs : DatabaseConfiguration) : ParameterInput :=
  let parameter : ParameterInput :=
    { ParameterInput.zero with
      AdminPassword := attrs.admin_password
      BackupDestination := attrs.backup_destination
      CharSet := attrs.character_set
      DisasterRecovery := attrs.disaster_recovery
      FailoverDatabase := attrs.failover_database
      GoldenGate := attrs.golden_gate
      IsRAC := attrs.is_rac
      NCharSet := attrs.national_character_set
      PDBName := attrs.pdb_name
      SID := attrs.sid
      Timezone := attrs.timezone
      Type_ := attrs.type
      UsableStorage := Itoa attrs.usable_storage }
  let parameter :=
    match attrs.snapshot_name with
    | some val => if val ≠ "" then { parameter with SnapshotName := val } else parameter
    | none => parameter
  let parameter :=
    match attrs.source_service_name with
    | some val => if val ≠ "" then { parameter with SourceServiceName := val } else parameter
    | none => parameter
  let parameter :=
    match attrs.db_demo with
    | some val => { parameter with AdditionalParameters := { DBDemo := val } }
    | none => parameter
  parameter

/-- The function `expandParameter`.  Indexing `databaseConfigInfo[0]` panics on an empty
list.  The value returned by `expandHDG` is dropped at the call site, as in
the source; only the mutation of `parameter` is kept. -/
def expandParameter (d : ResourceData) : Exec (ParameterInput × Option GoError) :=
  match d.database_configuration with
  | [] => .panic "index out of range [0] with length 0"
  | attrs :: _ =>
    let parameter := parameterFromAttrs attrs
    let parameter := expandIbkup d parameter
    match expandBackups d parameter with
    | (parameter, some err) => .ret (parameter, some err)
    | (parameter, none) =>
      let parameter := (expandHDG d parameter).1
      .ret (parameter, none)

/-! ## Resource data access -/

/-- A dynamically typed value handed to `d.Set` or returned by `d.Get`. -/
inductive Value where
  | nil
  | str (s : String)
  | bool (b : Bool)
  | strList (l : List String)
  | databaseConfiguration (l : List DatabaseConfiguration)
  | instantiateFromBackup (l : List InstantiateFromBackup)
  | backups (l : List Backups)
  | hybridDisasterRecovery (l : List HybridDisasterRecovery)
deriving DecidableEq, Repr

/-- The method `d.Id()`. -/
def ResourceData.Id (d : ResourceData) : String :=
  d.id

/-- The method `d.SetId(v)`. -/
def ResourceData.SetId (d : ResourceData) (v : String) : ResourceData :=
  { d with id := v }

/-- The top-level keys of the schema of the resource. -/
inductive SchemaKey where
  | name
  | description
  | edition
  | level
  | shape
  | subscription_type
  | version
  | ssh_public_key
  | database_configuration
  | instantiate_from_backup
  | backups
  | hybrid_disaster_recovery
  | region
  | availability_domain
  | ip_network
  | ip_reservations
  | notification_email
  | byol
  | high_performance_storage
  | subnet
  | cloud_storage_container
  | compute_site_name
  | dbaas_monitor_url
  | em_url
  | glassfish_url
  | identity_domain
  | uri
deriving DecidableEq, Repr

/-- The schema key a string names, if any: the lookup of an address in the
schema map of `resourceOPAASDatabaseServiceInstance`. -/
def SchemaKey.ofString (key : String) : Option SchemaKey :=
  match key with
  | "name" => some .name
  | "description" => some .description
  | "edition" => some .edition
  | "level" => some .level
  | "shape" => some .shape
  | "subscription_type" => some .subscription_type
  | "version" => some .version
  | "ssh_public_key" => some .ssh_public_key
  | "database_configuration" => some .database_configuration
  | "instantiate_from_backup" => some .instantiate_from_backup
  | "backups" => some .backups
  | "hybrid_disaster_recovery" => some .hybrid_disaster_recovery
  | "region" => some .region
  | "availability_domain" => some .availability_domain
  | "ip_network" => some .ip_network
  | "ip_reservations" => some .ip_reservations
  | "notification_email" => some .notification_email
  | "byol" => some .byol
  | "high_performance_storage" => some .high_performance_storage
  | "subnet" => some .subnet
  | "cloud_storage_container" => some .cloud_storage_container
  | "compute_site_name" => some .compute_site_name
  | "dbaas_monitor_url" => some .dbaas_monitor_url
  | "em_url" => some .em_url
  | "glassfish_url" => some .glassfish_url
  | "identity_domain" => some .identity_domain
  | "uri" => some .uri
  | _ => none

/-- The value stored under a schema key. -/
def ResourceData.getKey (d : ResourceData) : SchemaKey → Value
  | .name => .str d.name
  | .description => .str d.description
  | .edition => .str d.edition
  | .level => .str d.level
  | .shape => .str d.shape
  | .subscription_type => .str d.subscription_type
  | .version => .str d.version
  | .ssh_public_key => .str d.ssh_public_key
  | .database_configuration => .databaseConfiguration d.database_configuration
  | .instantiate_from_backup => .instantiateFromBackup d.instantiate_from_backup
  | .backups => .backups d.backups
  | .hybrid_disaster_recovery => .hybridDisasterRecovery d.hybrid_disaster_recovery
  | .region => .str d.region
  | .availability_domain => .str d.availability_domain
  | .ip_network => .str d.ip_network
  | .ip_reservations => .strList d.ip_reservations
  | .notification_email => .str d.notification_email
  | .byol => .bool d.byol
  | .high_performance_storage => .bool d.high_performance_storage
  | .subnet => .str d.subnet
  | .cloud_storage_container => .str d.cloud_storage_container
  | .compute_site_name => .str d.compute_site_name
  | .dbaas_monitor_url => .str d.dbaas_monitor_url
  | .em_url => .str d.em_url
  | .glassfish_url => .str d.glassfish_url
  | .identity_domain => .str d.identity_domain
  | .uri => .str d.uri

/-- Writing a value under a schema key; a value that is not of the type of
the key is rejected and the data is left as it was. -/
def ResourceData.setKey (d : ResourceData) (key : SchemaKey) (value : Value) : ResourceData :=
  match key with
  | .name =>
    match value with
    | .str v => { d with name := v }
    | _ => d
  | .description =>
    match value with
    | .str v => { d with description := v }
    | _ => d
  | .edition =>
    match value with
    | .str v => { d with edition := v }
    | _ => d
  | .level =>
    match value with
    | .str v => { d with level := v }
    | _ => d
  | .shape =>
    match value with
    | .str v => { d with shape := v }
    | _ => d
  | .subscription_type =>
    match value with
    | .str v => { d with subscription_type := v }
    | _ => d
  | .version =>
    match value with
    | .str v => { d with version := v }
    | _ => d
  | .ssh_public_key =>
    match value with
    | .str v => { d with ssh_public_key := v }
    | _ => d
  | .database_configuration =>
    match value with
    | .databaseConfiguration v => { d with database_configuration := v }
    | _ => d
  | .instantiate_from_backup =>
    match value with
    | .instantiateFromBackup v => { d with instantiate_from_backup := v }
    | _ => d
  | .backups =>
    match value with
    | .backups v => { d with backups := v }
    | _ => d
  | .hybrid_disaster_recovery =>
    match value with
    | .hybridDisasterRecovery v => { d with hybrid_disaster_recovery := v }
    | _ => d
  | .region =>
    match value with
    | .str v => { d with region := v }
    | _ => d
  | .availability_domain =>
    match value with
    | .str v => { d with availability_domain := v }
    | _ => d
  | .ip_network =>
    match value with
    | .str v => { d with ip_network := v }
    | _ => d
  | .ip_reservations =>
    match value with
    | .strList v => { d with ip_reservations := v }
    | _ => d
  | .notification_email =>
    match value with
    | .str v => { d with notification_email := v }
    | _ => d
  | .byol =>
    match value with
    | .bool v => { d with byol := v }
    | _ => d
  | .high_performance_storage =>
    match value with
    | .bool v => { d with high_performance_storage := v }
    | _ => d
  | .subnet =>
    match value with
    | .str v => { d with subnet := v }
    | _ => d
  | .cloud_storage_container =>
    match value with
    | .str v => { d with cloud_storage_container := v }
    | _ => d
  | .compute_site_name =>
    match value with
    | .str v => { d with compute_site_name := v }
    | _ => d
  | .dbaas_monitor_url =>
    match value with
    | .str v => { d with dbaas_monitor_url := v }
    | _ => d
  | .em_url =>
    match value with
    | .str v => { d with em_url := v }
    | _ => d
  | .glassfish_url =>
    match value with
    | .str v => { d with glassfish_url := v }
    | _ => d
  | .identity_domain =>
    match value with
    | .str v => { d with identity_domain := v }
    | _ => d
  | .uri =>
    match value with
    | .str v => { d with uri := v }
    | _ => d

/-- The method `d.Get(key)`: the value of a top-level schema key; a key that is not in
the schema of the resource reads as `nil`. -/
def ResourceData.Get (d : ResourceData) (key : String) : Value :=
  match SchemaKey.ofString key with
  | some k => d.getKey k
  | none => .nil

/-- The method `d.Set(key, value)` with the returned error dropped, as at every call
site of the source: a top-level schema key given a value of its type is
written; a key that is not in the schema of the resource is rejected by the
framework and the data is left as it was. -/
def ResourceData.Set (d : ResourceData) (key : String) (value : Value) : ResourceData :=
  match SchemaKey.ofString key with
  | some k => d.setKey k value
  | none => d

/-- Modelled from the spec: `getStringList` is a helper of this package
declared outside this file; the spec has `ip_reservations` read as an ordered
list of strings. -/
def getStringList (d : ResourceData) : List String :=
  d.ip_reservations

/-! ## The provisioning client -/

/-- The service instance client.  A method returning `(*T, error)` returns a
pair; `none` in the first component is the `nil` pointer. -/
structure ServiceInstanceClient where
  CreateServiceInstance : CreateServiceInstanceInput → Option ServiceInstance × Option GoError
  GetServiceInstance : GetServiceInstanceInput → Option ServiceInstance × Option GoError
  DeleteServiceInstance : DeleteServiceInstanceInput → Option GoError

/-- The provider meta value.  `getDatabaseClient` is declared outside this
file; what it returns on `meta`, followed by `ServiceInstanceClient()`, is
taken as a field: the client, or the error. -/
structure Meta where
  getDatabaseClient : Except GoError ServiceInstanceClient

/-- A call made to the provisioning client. -/
inductive ClientCall where
  | create (input : CreateServiceInstanceInput)
  | get (input : GetServiceInstanceInput)
  | delete (input : DeleteServiceInstanceInput)
deriving DecidableEq, Repr

/-- What a resource operation returned. -/
inductive Returned where
  | nil
  | err (e : GoError)
  | panic (reason : String)
deriving DecidableEq, Repr

/-- A finished resource operation: the resource data it leaves, the client
calls it made in order, and what it returned. -/
structure Run where
  d : ResourceData
  calls : List ClientCall
  result : Returned
deriving DecidableEq, Repr

/-! ## Read -/

/-- The function `setAttributesFromConfig`. -/
def setAttributesFromConfig (d : ResourceData) : ResourceData :=
  d.Set "disaster_recovery" (d.Get "disaster_recovery")

/-- The assignment block of the read operation (the `d.Set` calls on a
non-nil record), before `setAttributesFromConfig`. -/
def setFromServiceInstance (d : ResourceData) (result : ServiceInstance) : ResourceData :=
  let d := d.Set "name" (.str result.Name)
  let d := d.Set "region" (.str result.Region)
  let d := d.Set "availability_domain" (.str result.AvailabilityDomain)
  let d := d.Set "description" (.str result.Description)
  let d := d.Set "backup_destination" (.str result.BackupDestination)
  let d := d.Set "character_set" (.str result.CharSet)
  let d := d.Set "cloud_storage_container" (.str result.CloudStorageContainer)
  let d := d.Set "compute_site_name" (.str result.ComputeSiteName)
  let d := d.Set "connect_descriptor" (.str result.ConnectDescriptor)
  let d := d.Set "dbaas_monitor_url" (.str result.DBAASMonitorURL)
  let d := d.Set "edition" (.str result.Edition)
  let d := d.Set "em_url" (.str result.EMURL)
  let d := d.Set "failover_database" (.bool result.FailoverDatabase)
  let d := d.Set "high_performance_storage" (.bool result.UseHighPerformanceStorage)
  let d := d.Set "glassfish_url" (.str result.GlassFishURL)
  let d := d.Set "identity_domain" (.str result.IdentityDomain)
  let d := d.Set "ip_network" (.str result.IPNetwork)
  let d := d.Set "byol" (.bool result.IsBYOL)
  let d := d.Set "level" (.str result.Level)
  let d := d.Set "national_character_set" (.str result.NCharSet)
  let d := d.Set "pdb_name" (.str result.PDBName)
  let d := d.Set "uri" (.str result.URI)
  let d := d.Set "shape" (.str result.Shape)
  let d := d.Set "sid" (.str result.SID)
  let d := d.Set "subnet" (.str result.Subnet)
  let d := d.Set "subscription_type" (.str result.SubscriptionType)
  let d := d.Set "timezone" (.str result.Timezone)
  let d := d.Set "version" (.str result.Version)
  d

/-- The read operation from the non-nil check on: the assignment block
followed by `setAttributesFromConfig`. -/
def applyServiceInstanceRecord (d : ResourceData) (result : ServiceInstance) : ResourceData :=
  setAttributesFromConfig (setFromServiceInstance d result)

/-- The function `resourceOPAASDatabaseServiceInstanceRead`. -/
def resourceOPAASDatabaseServiceInstanceRead (d : ResourceData) (meta : Meta) : Run :=
  match meta.getDatabaseClient with
  | .error err => { d := d, calls := [], result := .err err }
  | .ok client =>
    let getInput : GetServiceInstanceInput := { Name := d.Id }
    match client.GetServiceInstance getInput with
    | (_, some err) =>
      if WasNotFoundError err then
        { d := d.SetId "", calls := [.get getInput], result := .nil }
      else
        { d := d, calls := [.get getInput],
          result := .err (fmtErrorf
            ("Error reading database service instance " ++ d.Id ++ ": " ++ err.msg)) }
    | (none, none) =>
      { d := d.SetId "", calls := [.get getInput], result := .nil }
    | (some result, none) =>
      { d := applyServiceInstanceRecord d result, calls := [.get getInput], result := .nil }

/-! ## Create -/

/-- The `CreateServiceInstanceInput` literal of the create operation followed
by the assignments of the optional keys, up to the `PAAS` branch. -/
def createInputBeforeParameter (d : ResourceData) : CreateServiceInstanceInput :=
  let input : CreateServiceInstanceInput :=
    { Name := d.name
      Edition := d.edition
      IPReservations := getStringList d
      IsBYOL := d.byol
      Level := d.level
      Shape := d.shape
      SubscriptionType := d.subscription_type
      UseHighPerformanceStorage := d.high_performance_storage
      Version := d.version
      VMPublicKey := d.ssh_public_key
      Description := ""
      EnableNotification := false
      NotificationEmail := ""
      IPNetwork := ""
      Region := ""
      AvailabilityDomain := ""
      Subnet := ""
      Parameter := ParameterInput.zero }
  let input := if d.description ≠ "" then { input with Description := d.description } else input
  let input :=
    if d.notification_email ≠ "" then
      { input with EnableNotification := true, NotificationEmail := d.notification_email }
    else input
  let input := if d.ip_network ≠ "" then { input with IPNetwork := d.ip_network } else input
  let input :=
    if d.ip_reservations ≠ [] then { input with IPReservations := getStringList d } else input
  let input := if d.region ≠ "" then { input with Region := d.region } else input
  let input :=
    if d.availability_domain ≠ "" then { input with AvailabilityDomain := d.availability_domain }
    else input
  let input := if d.subnet ≠ "" then { input with Subnet := d.subnet } else input
  input

/-- The request-building part of the create operation (from the
`CreateServiceInstanceInput` literal to the end of the `PAAS` branch): the
input as built so far, and the error the operation returns at that point, if
any. -/
def buildCreateRequest (d : ResourceData) : Exec (CreateServiceInstanceInput × Option GoError) :=
  let input := createInputBeforeParameter d
  -- Only the PaaS level can have a parameter.
  if input.Level = ServiceInstanceLevelPAAS then
    match expandParameter d with
    | .panic reason => .panic reason
    | .ret (parameter, some err) => .ret ({ input with Parameter := parameter }, some err)
    | .ret (parameter, none) => .ret ({ input with Parameter := parameter }, none)
  else
    .ret (input, none)

/-- The function `resourceOPAASDatabaseServiceInstanceCreate`.  Reading `info.Name` on a nil
`info` is a nil dereference. -/
def resourceOPAASDatabaseServiceInstanceCreate (d : ResourceData) (meta : Meta) : Run :=
  match meta.getDatabaseClient with
  | .error err => { d := d, calls := [], result := .err err }
  | .ok client =>
    match buildCreateRequest d with
    | .panic reason => { d := d, calls := [], result := .panic reason }
    | .ret (_, some err) => { d := d, calls := [], result := .err err }
    | .ret (input, none) =>
      match client.CreateServiceInstance input with
      | (_, some err) =>
        { d := d, calls := [.create input],
          result := .err (fmtErrorf ("Error creating DatabaseServiceInstance: " ++ err.msg)) }
      | (none, none) =>
        { d := d, calls := [.create input],
          result := .panic "invalid memory address or nil pointer dereference" }
      | (some info, none) =>
        let read := resourceOPAASDatabaseServiceInstanceRead (d.SetId info.Name) meta
        { d := read.d, calls := .create input :: read.calls, result := read.result }

/-! ## Sample data -/

/-- A `database_configuration` element holding the schema defaults. -/
def sampleDatabaseConfiguration : DatabaseConfiguration :=
  { admin_password := "Pa55_Word"
    backup_destination := "NONE"
    character_set := "AL32UTF8"
    db_demo := some ""
    disaster_recovery := true
    failover_database := false
    golden_gate := false
    is_rac := false
    national_character_set := "AL16UTF16"
    pdb_name := "pdb1"
    sid := "ORCL"
    timezone := "UTC"
    type := "db"
    usable_storage := 15
    snapshot_name := some ""
    source_service_name := some "" }

/-- A resource at the default (`BASIC`) level, not yet created. -/
def sampleResourceData : ResourceData :=
  { id := ""
    name := "db1"
    description := ""
    edition := "EE"
    level := "BASIC"
    shape := "oc3"
    subscription_type := "HOURLY"
    version := "12.2.0.1"
    ssh_public_key := "ssh-rsa AAAA"
    database_configuration := [sampleDatabaseConfiguration]
    instantiate_from_backup := []
    backups := []
    hybrid_disaster_recovery := []
    region := ""
    availability_domain := ""
    ip_network := ""
    ip_reservations := []
    notification_email := ""
    byol := false
    high_performance_storage := false
    subnet := ""
    cloud_storage_container := ""
    compute_site_name := ""
    dbaas_monitor_url := ""
    em_url := ""
    glassfish_url := ""
    identity_domain := ""
    uri := "" }

/-- A `hybrid_disaster_recovery` element. -/
def sampleHybridDisasterRecovery : HybridDisasterRecovery :=
  { cloud_storage_container := "Storage-dom/hdg"
    cloud_storage_username := some "hdg-user"
    cloud_storage_password := some "hdg-pass" }

/-- A `PAAS` configuration with a `hybrid_disaster_recovery` group and
`is_rac = true`. -/
def hdgWithRacConfig : ResourceData :=
  { sampleResourceData with
    level := "PAAS"
    database_configuration := [{ sampleDatabaseConfiguration with is_rac := true }]
    hybrid_disaster_recovery := [sampleHybridDisasterRecovery] }

/-- A `PAAS` configuration with a `hybrid_disaster_recovery` group and
neither `is_rac` nor `failover_database`. -/
def hdgConfig : ResourceData :=
  { sampleResourceData with
    level := "PAAS"
    hybrid_disaster_recovery := [sampleHybridDisasterRecovery] }

/-- A `PAAS` configuration with `backup_destination = OSS` and no `backups`
group. -/
def ossWithoutBackupsConfig : ResourceData :=
  { sampleResourceData with
    level := "PAAS"
    database_configuration := [{ sampleDatabaseConfiguration with backup_destination := "OSS" }] }

/-- An `instantiate_from_backup` element whose `cloud_storage_container` and
`database_id` differ. -/
def sampleInstantiateFromBackup : InstantiateFromBackup :=
  { cloud_storage_container := "Storage-dom/backups"
    cloud_storage_password := some "ibkup-pass"
    cloud_storage_username := some "ibkup-user"
    database_id := "1234567890"
    decryption_key := some ""
    on_premise := true
    service_id := some ""
    wallet_file_content := some "" }

/-- A configuration with an `instantiate_from_backup` group. -/
def ibkupConfig : ResourceData :=
  { sampleResourceData with
    level := "PAAS"
    instantiate_from_backup := [sampleInstantiateFromBackup] }

/-- A configuration with a `notification_email`. -/
def notifiedConfig : ResourceData :=
  { sampleResourceData with notification_email := "dba@example.com" }

/-- A service instance record as the API reports it. -/
def sampleServiceInstance : ServiceInstance :=
  { Name := "db1"
    Region := "uscom-central-1"
    AvailabilityDomain := ""
    Description := "created remotely"
    BackupDestination := "NONE"
    CharSet := "AL32UTF8"
    CloudStorageContainer := ""
    ComputeSiteName := "US006_Z70"
    ConnectDescriptor := "db1:1521/pdb1"
    DBAASMonitorURL := "https://db1/dbaas_monitor"
    Edition := "EE"
    EMURL := "https://db1:5500/em"
    FailoverDatabase := false
    UseHighPerformanceStorage := false
    GlassFishURL := "https://db1:4848"
    IdentityDomain := "dom"
    IPNetwork := ""
    IsBYOL := true
    Level := "PAAS"
    NCharSet := "AL16UTF16"
    PDBName := "pdb1"
    URI := "https://api/paas/service/dbcs/api/v1.1/instances/dom/db1"
    Shape := "oc3"
    SID := "ORCL"
    Subnet := ""
    SubscriptionType := "HOURLY"
    Timezone := "UTC"
    Version := "12.2.0.1" }

/-- A remote error that is not a not-found error. -/
def serverError : GoError :=
  { msg := "500: Internal Server Error", notFound := false }

/-- A remote not-found error. -/
def notFoundError : GoError :=
  { msg := "404: Not Found", notFound := true }

/-- A client that creates the instance and then fails every read with a
server error. -/
def readFailingClient : ServiceInstanceClient :=
  { CreateServiceInstance := fun input =>
      (some { sampleServiceInstance with Name := input.Name }, none)
    GetServiceInstance := fun _ => (none, some serverError)
    DeleteServiceInstance := fun _ => none }

/-- The provider meta value holding `readFailingClient`. -/
def readFailingMeta : Meta :=
  { getDatabaseClient := .ok readFailingClient }

/-- A client whose read answers by instance name: `"gone"` is not found,
`"void"` is a nil record without error, `"broken"` is a server error, and any
other name is found. -/
def lookupClient : ServiceInstanceClient :=
  { CreateServiceInstance := fun input =>
      (some { sampleServiceInstance with Name := input.Name }, none)
    GetServiceInstance := fun input =>
      if input.Name = "gone" then (none, some notFoundError)
      else if input.Name = "void" then (none, none)
      else if input.Name = "broken" then (none, some serverError)
      else (some { sampleServiceInstance with Name := input.Name }, none)
    DeleteServiceInstance := fun _ => none }

/-- The provider meta value holding `lookupClient`. -/
def lookupMeta : Meta :=
  { getDatabaseClient := .ok lookupClient }

/-! ## Schema validators -/

/-- Go `strings.ToLower` on the letters `A` to `Z`; other characters are left
as they are. -/
def ToLower (s : String) : String :=
  String.mk (s.data.map Char.toLower)

/-- The validator `validation.StringInSlice(valid, ignoreCase)` of the
framework, applied to a string value: whether it reports no error.  A value
passes when it equals an element of `valid`, or, with `ignoreCase`, when the
two agree after `strings.ToLower`. -/
def StringInSlice (valid : List String) (ignoreCase : Bool) (v : String) : Bool :=
  valid.any fun str => decide (v = str) || (ignoreCase && decide (ToLower v = ToLower str))

/-- The `ValidateFunc` of the schema key `level`. -/
def validateLevel (v : String) : Bool :=
  StringInSlice [ServiceInstanceLevelPAAS, ServiceInstanceLevelBasic] true v

/-- The `ValidateFunc` of the key `backup_destination` of
`database_configuration`. -/
def validateBackupDestination (v : String) : Bool :=
  StringInSlice
    [ServiceInstanceBackupDestinationBoth, ServiceInstanceBackupDestinationOSS,
      ServiceInstanceBackupDestinationNone] true v

/-- Whether the `level` of a configuration and the `backup_destination` of
each of its `database_configuration` elements pass their validators. -/
def validLevelAndBackupDestination (d : ResourceData) : Bool :=
  validateLevel d.level
    && d.database_configuration.all fun attrs => validateBackupDestination attrs.backup_destination

/-- A configuration with `level = "paas"`, `backup_destination = "OSS"` and no
`backups` group. -/
def lowerCaseLevelConfig : ResourceData :=
  { sampleResourceData with
    level := "paas"
    database_configuration := [{ sampleDatabaseConfiguration with backup_destination := "OSS" }] }

/-- A configuration with `level = "PAAS"`, `backup_destination = "oss"` and no
`backups` group. -/
def lowerCaseDestinationConfig : ResourceData :=
  { sampleResourceData with
    level := "PAAS"
    database_configuration := [{ sampleDatabaseConfiguration with backup_destination := "oss" }] }

/-! ## Further sample data -/

/-- The error of a `getDatabaseClient` that has no database client to hand
over. -/
def clientNotInitialized : GoError :=
  { msg := "Database Client is not initialized", notFound := false }

/-- A provider meta value on which `getDatabaseClient` fails. -/
def noClientMeta : Meta :=
  { getDatabaseClient := .error clientNotInitialized }

/-- A record whose backup destination is `BOTH`, unlike the `NONE` of
`sampleDatabaseConfiguration`. -/
def driftedServiceInstance : ServiceInstance :=
  { sampleServiceInstance with BackupDestination := "BOTH" }

/-! ## Lemmas on the mapper -/

/-- Resetting the eight `IBKUP` fields of the result of `expandIbkup` gives
the parameter back: no other field is written. -/
theorem expandIbkup_frame (d : ResourceData) (p : ParameterInput) :
    { expandIbkup d p with
      IBKUP := p.IBKUP
      IBKUPDatabaseID := p.IBKUPDatabaseID
      IBKUPOnPremise := p.IBKUPOnPremise
      IBKUPCloudStorageUser := p.IBKUPCloudStorageUser
      IBKUPCloudStoragePassword := p.IBKUPCloudStoragePassword
      IBKUPDecryptionKey := p.IBKUPDecryptionKey
      IBKUPServiceID := p.IBKUPServiceID
      IBKUPWalletFileContent := p.IBKUPWalletFileContent } = p := by
  unfold expandIbkup
  split
  · rfl
  · rename_i attrs _ _
    cases attrs.cloud_storage_username <;> cases attrs.cloud_storage_password <;>
      cases attrs.decryption_key <;> cases attrs.service_id <;>
      cases attrs.wallet_file_content <;> rfl

/-- What `expandIbkup` writes when the group is present. -/
theorem expandIbkup_present (d : ResourceData) (p : ParameterInput)
    (attrs : InstantiateFromBackup) (rest : List InstantiateFromBackup)
    (h : d.instantiate_from_backup = attrs :: rest) :
    (expandIbkup d p).IBKUP = true
      ∧ (expandIbkup d p).IBKUPDatabaseID = attrs.cloud_storage_container
      ∧ (expandIbkup d p).IBKUPOnPremise = attrs.on_premise := by
  unfold expandIbkup
  split
  · rename_i heq
    rw [h] at heq
    cases heq
  · rename_i a t heq
    rw [h] at heq
    cases heq
    repeat' split
    all_goals exact ⟨rfl, rfl, rfl⟩

/-- `expandIbkup` leaves the fields read by the later steps alone. -/
theorem expandIbkup_keeps (d : ResourceData) (p : ParameterInput) :
    (expandIbkup d p).BackupDestination = p.BackupDestination
      ∧ (expandIbkup d p).FailoverDatabase = p.FailoverDatabase
      ∧ (expandIbkup d p).IsRAC = p.IsRAC
      ∧ (expandIbkup d p).HDG = p.HDG
      ∧ (expandIbkup d p).HDGCloudStorageContainer = p.HDGCloudStorageContainer
      ∧ (expandIbkup d p).HDGCloudStorageUser = p.HDGCloudStorageUser
      ∧ (expandIbkup d p).HDGCloudStoragePassword = p.HDGCloudStoragePassword := by
  have h := expandIbkup_frame d p
  exact ⟨(congrArg ParameterInput.BackupDestination h :),
    (congrArg ParameterInput.FailoverDatabase h :),
    (congrArg ParameterInput.IsRAC h :),
    (congrArg ParameterInput.HDG h :),
    (congrArg ParameterInput.HDGCloudStorageContainer h :),
    (congrArg ParameterInput.HDGCloudStorageUser h :),
    (congrArg ParameterInput.HDGCloudStoragePassword h :)⟩

/-- With a destination of `OSS` or `BOTH` and no `backups` group,
`expandBackups` returns its error and leaves the parameter as it was. -/
theorem expandBackups_required (d : ResourceData) (p : ParameterInput)
    (hdest : p.BackupDestination = ServiceInstanceBackupDestinationOSS
      ∨ p.BackupDestination = ServiceInstanceBackupDestinationBoth)
    (hb : d.backups = []) :
    expandBackups d p = (p, some backupsRequiredError) := by
  unfold expandBackups
  have hcond : (p.BackupDestination = ServiceInstanceBackupDestinationBoth
        ∨ p.BackupDestination = ServiceInstanceBackupDestinationOSS) ∧ d.backups.length = 0 :=
    ⟨hdest.symm, by rw [hb]; rfl⟩
  simp only [hcond, and_self, if_true]

/-- `expandBackups` leaves the fields read by `expandHDG` alone. -/
theorem expandBackups_keeps (d : ResourceData) (p : ParameterInput) :
    (expandBackups d p).1.FailoverDatabase = p.FailoverDatabase
      ∧ (expandBackups d p).1.IsRAC = p.IsRAC
      ∧ (expandBackups d p).1.HDG = p.HDG
      ∧ (expandBackups d p).1.HDGCloudStorageContainer = p.HDGCloudStorageContainer
      ∧ (expandBackups d p).1.HDGCloudStorageUser = p.HDGCloudStorageUser
      ∧ (expandBackups d p).1.HDGCloudStoragePassword = p.HDGCloudStoragePassword := by
  unfold expandBackups
  simp only []
  repeat' split
  all_goals exact ⟨rfl, rfl, rfl, rfl, rfl, rfl⟩

/-- `expandHDG` on a parameter without hybrid-DR fields: when the result has
`FailoverDatabase` or `IsRAC` set, it still has no hybrid-DR field. -/
theorem expandHDG_exclusive (d : ResourceData) (p : ParameterInput)
    (h0 : p.HDG = false ∧ p.HDGCloudStorageContainer = "" ∧ p.HDGCloudStorageUser = ""
      ∧ p.HDGCloudStoragePassword = "") :
    ((expandHDG d p).1.FailoverDatabase = true ∨ (expandHDG d p).1.IsRAC = true) →
      (expandHDG d p).1.HDG = false ∧ (expandHDG d p).1.HDGCloudStorageContainer = ""
        ∧ (expandHDG d p).1.HDGCloudStorageUser = ""
        ∧ (expandHDG d p).1.HDGCloudStoragePassword = "" := by
  unfold expandHDG
  split
  · exact fun _ => h0
  · rename_i attrs _ _
    by_cases hc : p.FailoverDatabase = true ∨ p.IsRAC = true
    · rw [if_pos hc]
      exact fun _ => h0
    · rw [if_neg hc]
      intro hx
      exfalso
      apply hc
      revert hx
      repeat' split
      all_goals exact id

/-- The fields of the parameter before the sub-steps that the sub-steps
read, and its hybrid-DR fields, which are still zero. -/
theorem parameterFromAttrs_fields (attrs : DatabaseConfiguration) :
    (parameterFromAttrs attrs).BackupDestination = attrs.backup_destination
      ∧ (parameterFromAttrs attrs).FailoverDatabase = attrs.failover_database
      ∧ (parameterFromAttrs attrs).IsRAC = attrs.is_rac
      ∧ (parameterFromAttrs attrs).HDG = false
      ∧ (parameterFromAttrs attrs).HDGCloudStorageContainer = ""
      ∧ (parameterFromAttrs attrs).HDGCloudStorageUser = ""
      ∧ (parameterFromAttrs attrs).HDGCloudStoragePassword = "" := by
  unfold parameterFromAttrs
  simp only []
  repeat' split
  all_goals exact ⟨rfl, rfl, rfl, rfl, rfl, rfl, rfl⟩

/-- The result of `expandParameter` on a non-empty `database_configuration`,
in terms of the sub-steps. -/
theorem expandParameter_cons (d : ResourceData) (attrs : DatabaseConfiguration)
    (rest : List DatabaseConfiguration) (hcfg : d.database_configuration = attrs :: rest) :
    expandParameter d =
      match expandBackups d (expandIbkup d (parameterFromAttrs attrs)) with
      | (parameter, some err) => .ret (parameter, some err)
      | (parameter, none) => .ret ((expandHDG d parameter).1, none) := by
  unfold expandParameter
  rw [hcfg]

/-- The only error `expandParameter` returns is the one of `expandBackups`:
the value returned by `expandHDG` never reaches the caller. -/
theorem expandParameter_error_is_backupsRequired (d : ResourceData) (p : ParameterInput)
    (e : GoError) (h : expandParameter d = .ret (p, some e)) :
    e = backupsRequiredError := by
  cases hcfg : d.database_configuration with
  | nil =>
    unfold expandParameter at h
    rw [hcfg] at h
    cases h
  | cons attrs rest =>
    rw [expandParameter_cons d attrs rest hcfg] at h
    generalize expandIbkup d (parameterFromAttrs attrs) = q1 at h
    have hb : ∀ q err, expandBackups d q1 = (q, some err) → err = backupsRequiredError := by
      intro q err hq
      unfold expandBackups at hq
      simp only [] at hq
      repeat' split at hq
      all_goals cases hq
      all_goals rfl
    generalize hq2 : expandBackups d q1 = r at h
    obtain ⟨q2, eb⟩ := r
    cases eb with
    | some err =>
      simp only [Exec.ret.injEq, Prod.mk.injEq, Option.some.injEq] at h
      rw [← h.2]
      exact hb q2 err hq2
    | none => cases h

/-! ## Lemmas on the resource data -/

/-- The keys written by the read operation that are top-level keys of the
schema. -/
theorem SchemaKey.ofString_assigned :
    SchemaKey.ofString "name" = some .name
      ∧ SchemaKey.ofString "region" = some .region
      ∧ SchemaKey.ofString "availability_domain" = some .availability_domain
      ∧ SchemaKey.ofString "description" = some .description
      ∧ SchemaKey.ofString "cloud_storage_container" = some .cloud_storage_container
      ∧ SchemaKey.ofString "compute_site_name" = some .compute_site_name
      ∧ SchemaKey.ofString "dbaas_monitor_url" = some .dbaas_monitor_url
      ∧ SchemaKey.ofString "edition" = some .edition
      ∧ SchemaKey.ofString "em_url" = some .em_url
      ∧ SchemaKey.ofString "high_performance_storage" = some .high_performance_storage
      ∧ SchemaKey.ofString "glassfish_url" = some .glassfish_url
      ∧ SchemaKey.ofString "identity_domain" = some .identity_domain
      ∧ SchemaKey.ofString "ip_network" = some .ip_network
      ∧ SchemaKey.ofString "byol" = some .byol
      ∧ SchemaKey.ofString "level" = some .level
      ∧ SchemaKey.ofString "uri" = some .uri
      ∧ SchemaKey.ofString "shape" = some .shape
      ∧ SchemaKey.ofString "subnet" = some .subnet
      ∧ SchemaKey.ofString "subscription_type" = some .subscription_type
      ∧ SchemaKey.ofString "version" = some .version := by
  decide

/-- The keys written by the read operation that are not top-level keys of
the schema. -/
theorem SchemaKey.ofString_rejected :
    SchemaKey.ofString "backup_destination" = none
      ∧ SchemaKey.ofString "character_set" = none
      ∧ SchemaKey.ofString "connect_descriptor" = none
      ∧ SchemaKey.ofString "failover_database" = none
      ∧ SchemaKey.ofString "national_character_set" = none
      ∧ SchemaKey.ofString "pdb_name" = none
      ∧ SchemaKey.ofString "sid" = none
      ∧ SchemaKey.ofString "timezone" = none
      ∧ SchemaKey.ofString "disaster_recovery" = none := by
  decide

/-- The resource data after the assignment block and
`setAttributesFromConfig`: the twenty top-level keys of the schema among the
assigned keys hold the fields of the record; the writes to
`backup_destination`, `character_set`, `connect_descriptor`,
`failover_database`, `national_character_set`, `pdb_name`, `sid`, `timezone`
and `disaster_recovery`, which are not top-level keys, change nothing. -/
theorem applyServiceInstanceRecord_eq (d : ResourceData) (result : ServiceInstance) :
    applyServiceInstanceRecord d result =
      { d with
        name := result.Name
        region := result.Region
        availability_domain := result.AvailabilityDomain
        description := result.Description
        cloud_storage_container := result.CloudStorageContainer
        compute_site_name := result.ComputeSiteName
        dbaas_monitor_url := result.DBAASMonitorURL
        edition := result.Edition
        em_url := result.EMURL
        high_performance_storage := result.UseHighPerformanceStorage
        glassfish_url := result.GlassFishURL
        identity_domain := result.IdentityDomain
        ip_network := result.IPNetwork
        byol := result.IsBYOL
        level := result.Level
        uri := result.URI
        shape := result.Shape
        subnet := result.Subnet
        subscription_type := result.SubscriptionType
        version := result.Version } := by
  obtain ⟨h1, h2, h3, h4, h5, h6, h7, h8, h9, h10, h11, h12, h13, h14, h15, h16, h17, h18,
    h19, h20⟩ := SchemaKey.ofString_assigned
  obtain ⟨n1, n2, n3, n4, n5, n6, n7, n8, n9⟩ := SchemaKey.ofString_rejected
  simp only [applyServiceInstanceRecord, setAttributesFromConfig, setFromServiceInstance,
    ResourceData.Set, ResourceData.Get, h1, h2, h3, h4, h5, h6, h7, h8, h9, h10, h11, h12, h13,
    h14, h15, h16, h17, h18, h19, h20, n1, n2, n3, n4, n5, n6, n7, n8, n9, ResourceData.setKey]

/-! ## Lemmas on the create request -/

/-- The input before the `PAAS` branch carries the configured level and
still has the zero parameter. -/
theorem createInputBeforeParameter_frame (d : ResourceData) :
    (createInputBeforeParameter d).Level = d.level
      ∧ (createInputBeforeParameter d).Parameter = ParameterInput.zero := by
  have step : ∀ (c : Prop) [Decidable c] (a b : CreateServiceInstanceInput),
      (a.Level = d.level ∧ a.Parameter = ParameterInput.zero) →
      (b.Level = d.level ∧ b.Parameter = ParameterInput.zero) →
      ((if c then a else b).Level = d.level
        ∧ (if c then a else b).Parameter = ParameterInput.zero) := by
    intro c _ a b ha hb
    split <;> assumption
  unfold createInputBeforeParameter
  lift_lets
  intro i0 i1 i2 i3 i4 i5 i6 i7
  have h0 : i0.Level = d.level ∧ i0.Parameter = ParameterInput.zero := ⟨rfl, rfl⟩
  have h1 : i1.Level = d.level ∧ i1.Parameter = ParameterInput.zero := step _ _ _ h0 h0
  have h2 : i2.Level = d.level ∧ i2.Parameter = ParameterInput.zero := step _ _ _ h1 h1
  have h3 : i3.Level = d.level ∧ i3.Parameter = ParameterInput.zero := step _ _ _ h2 h2
  have h4 : i4.Level = d.level ∧ i4.Parameter = ParameterInput.zero := step _ _ _ h3 h3
  have h5 : i5.Level = d.level ∧ i5.Parameter = ParameterInput.zero := step _ _ _ h4 h4
  have h6 : i6.Level = d.level ∧ i6.Parameter = ParameterInput.zero := step _ _ _ h5 h5
  exact step _ _ _ h6 h6

/-- The notification fields of the input before the `PAAS` branch. -/
theorem createInputBeforeParameter_notification (d : ResourceData) :
    (createInputBeforeParameter d).EnableNotification = decide (d.notification_email ≠ "")
      ∧ (createInputBeforeParameter d).NotificationEmail = d.notification_email := by
  have step : ∀ (x : Bool) (y : String) (c : Prop) [Decidable c]
      (a b : CreateServiceInstanceInput),
      (a.EnableNotification = x ∧ a.NotificationEmail = y) →
      (b.EnableNotification = x ∧ b.NotificationEmail = y) →
      ((if c then a else b).EnableNotification = x
        ∧ (if c then a else b).NotificationEmail = y) := by
    intro x y c _ a b ha hb
    split <;> assumption
  unfold createInputBeforeParameter
  lift_lets
  intro i0 i1 i2 i3 i4 i5 i6 i7
  have h0 : i0.EnableNotification = false ∧ i0.NotificationEmail = "" := ⟨rfl, rfl⟩
  have h1 : i1.EnableNotification = false ∧ i1.NotificationEmail = "" :=
    step _ _ _ _ _ h0 h0
  have h2 : i2.EnableNotification = decide (d.notification_email ≠ "")
      ∧ i2.NotificationEmail = d.notification_email := by
    by_cases hn : d.notification_email ≠ ""
    · have e2 : i2 = { i1 with EnableNotification := true,
                                NotificationEmail := d.notification_email } := if_pos hn
      rw [e2]
      exact ⟨(decide_eq_true hn).symm, rfl⟩
    · have e2 : i2 = i1 := if_neg hn
      rw [e2]
      exact ⟨h1.1.trans (decide_eq_false hn).symm, h1.2.trans (not_not.mp hn).symm⟩
  have h3 : i3.EnableNotification = decide (d.notification_email ≠ "")
      ∧ i3.NotificationEmail = d.notification_email := step _ _ _ _ _ h2 h2
  have h4 : i4.EnableNotification = decide (d.notification_email ≠ "")
      ∧ i4.NotificationEmail = d.notification_email := step _ _ _ _ _ h3 h3
  have h5 : i5.EnableNotification = decide (d.notification_email ≠ "")
      ∧ i5.NotificationEmail = d.notification_email := step _ _ _ _ _ h4 h4
  have h6 : i6.EnableNotification = decide (d.notification_email ≠ "")
      ∧ i6.NotificationEmail = d.notification_email := step _ _ _ _ _ h5 h5
  exact step _ _ _ _ _ h6 h6

/-- Below the `PAAS` level the request is the input before the `PAAS`
branch. -/
theorem buildCreateRequest_not_paas (d : ResourceData)
    (hlevel : d.level ≠ ServiceInstanceLevelPAAS) :
    buildCreateRequest d = .ret (createInputBeforeParameter d, none) := by
  unfold buildCreateRequest
  simp only [(createInputBeforeParameter_frame d).1, hlevel, if_false]

/-- At the `PAAS` level the request is decided by `expandParameter`. -/
theorem buildCreateRequest_paas (d : ResourceData)
    (hlevel : d.level = ServiceInstanceLevelPAAS) :
    buildCreateRequest d =
      match expandParameter d with
      | .panic reason => .panic reason
      | .ret (parameter, some err) =>
        .ret ({ createInputBeforeParameter d with Parameter := parameter }, some err)
      | .ret (parameter, none) =>
        .ret ({ createInputBeforeParameter d with Parameter := parameter }, none) := by
  unfold buildCreateRequest
  simp only [(createInputBeforeParameter_frame d).1, hlevel, if_true]

/-- Whatever `buildCreateRequest` returns differs from the input before the
`PAAS` branch in the parameter only. -/
theorem buildCreateRequest_input (d : ResourceData) (input : CreateServiceInstanceInput)
    (e : Option GoError) (h : buildCreateRequest d = .ret (input, e)) :
    ∃ parameter, input = { createInputBeforeParameter d with Parameter := parameter } := by
  by_cases hlevel : d.level = ServiceInstanceLevelPAAS
  · rw [buildCreateRequest_paas d hlevel] at h
    split at h
    · cases h
    · cases h
      exact ⟨_, rfl⟩
    · cases h
      exact ⟨_, rfl⟩
  · rw [buildCreateRequest_not_paas d hlevel] at h
    cases h
    exact ⟨_, rfl⟩

/-! ## Lemmas on read and create -/

/-- The read operation, once the client is obtained, by the answer of
`GetServiceInstance`. -/
theorem read_cases (d : ResourceData) (meta : Meta) (client : ServiceInstanceClient)
    (hc : meta.getDatabaseClient = .ok client) :
    resourceOPAASDatabaseServiceInstanceRead d meta =
      match client.GetServiceInstance { Name := d.id } with
      | (_, some err) =>
        if WasNotFoundError err then
          { d := d.SetId "", calls := [.get { Name := d.id }], result := .nil }
        else
          { d := d, calls := [.get { Name := d.id }],
            result := .err (fmtErrorf
              ("Error reading database service instance " ++ d.id ++ ": " ++ err.msg)) }
      | (none, none) =>
        { d := d.SetId "", calls := [.get { Name := d.id }], result := .nil }
      | (some result, none) =>
        { d := applyServiceInstanceRecord d result, calls := [.get { Name := d.id }],
          result := .nil } := by
  unfold resourceOPAASDatabaseServiceInstanceRead
  rw [hc]
  rfl

/-- The create operation, once the client is obtained. -/
theorem create_cases (d : ResourceData) (meta : Meta) (client : ServiceInstanceClient)
    (hc : meta.getDatabaseClient = .ok client) :
    resourceOPAASDatabaseServiceInstanceCreate d meta =
      match buildCreateRequest d with
      | .panic reason => { d := d, calls := [], result := .panic reason }
      | .ret (_, some err) => { d := d, calls := [], result := .err err }
      | .ret (input, none) =>
        match client.CreateServiceInstance input with
        | (_, some err) =>
          { d := d, calls := [.create input],
            result := .err (fmtErrorf ("Error creating DatabaseServiceInstance: " ++ err.msg)) }
        | (none, none) =>
          { d := d, calls := [.create input],
            result := .panic "invalid memory address or nil pointer dereference" }
        | (some info, none) =>
          { d := (resourceOPAASDatabaseServiceInstanceRead (d.SetId info.Name) meta).d,
            calls := .create input
              :: (resourceOPAASDatabaseServiceInstanceRead (d.SetId info.Name) meta).calls,
            result :=
              (resourceOPAASDatabaseServiceInstanceRead (d.SetId info.Name) meta).result } := by
  unfold resourceOPAASDatabaseServiceInstanceCreate
  rw [hc]

/-- An error returned by the read operation leaves the resource data as it
was given. -/
theorem read_error_keeps (d : ResourceData) (meta : Meta) (e : GoError)
    (herr : (resourceOPAASDatabaseServiceInstanceRead d meta).result = .err e) :
    (resourceOPAASDatabaseServiceInstanceRead d meta).d = d
      ∧ (resourceOPAASDatabaseServiceInstanceRead d meta).calls.length ≤ 1 := by
  unfold resourceOPAASDatabaseServiceInstanceRead at herr ⊢
  split
  · exact ⟨rfl, Nat.zero_le _⟩
  · rename_i client hc
    rw [hc] at herr
    simp only [] at herr ⊢
    split
    · split
      · rename_i hget hnf
        rw [hget] at herr
        simp only [hnf, if_true] at herr
        cases herr
      · exact ⟨rfl, Nat.le_refl _⟩
    · rename_i hget
      rw [hget] at herr
      cases herr
    · rename_i hget
      rw [hget] at herr
      cases herr

/-! ## The claims -/

/-- Claim C1, at a failing input: the configuration `hdgWithRacConfig` has a
`hybrid_disaster_recovery` group and `is_rac = true`, yet `expandParameter`
returns a parameter and the `nil` error.  On that very parameter `expandHDG`
returns the exclusivity error, which `expandParameter` drops. -/
theorem expandParameter_hdg_with_rac_returns_no_error :
    ∃ p, expandParameter hdgWithRacConfig = .ret (p, none)
      ∧ p.IsRAC = true ∧ p.HDG = false
      ∧ expandHDG hdgWithRacConfig p = (p, some hdgExclusiveError) := by
  refine ⟨_, rfl, ?_, ?_, ?_⟩ <;> decide

/-- Claim C2: when `backup_destination` of the `database_configuration`
element is `OSS` or `BOTH` and the `backups` group is absent,
`expandParameter` returns the backups-required error of `expandBackups`,
whatever the other fields hold. -/
theorem expandParameter_backups_required (d : ResourceData) (attrs : DatabaseConfiguration)
    (rest : List DatabaseConfiguration)
    (hcfg : d.database_configuration = attrs :: rest)
    (hdest : attrs.backup_destination = ServiceInstanceBackupDestinationOSS
      ∨ attrs.backup_destination = ServiceInstanceBackupDestinationBoth)
    (hb : d.backups = []) :
    ∃ p, expandParameter d = .ret (p, some backupsRequiredError) := by
  have hq : (expandIbkup d (parameterFromAttrs attrs)).BackupDestination
      = attrs.backup_destination :=
    (expandIbkup_keeps d _).1.trans (parameterFromAttrs_fields attrs).1
  rw [expandParameter_cons d attrs rest hcfg, expandBackups_required d _ (hq ▸ hdest) hb]
  exact ⟨_, rfl⟩

/-- Claim C2 at `ossWithoutBackupsConfig`. -/
theorem expandParameter_backups_required_witness :
    ∃ p, expandParameter ossWithoutBackupsConfig = .ret (p, some backupsRequiredError) :=
  expandParameter_backups_required ossWithoutBackupsConfig
    { sampleDatabaseConfiguration with backup_destination := "OSS" } [] rfl (Or.inl rfl) rfl

/-- Claim C3: when `level` is not the `PAAS` level, the request part of the
create operation returns an input with the `nil` error, and the `Parameter`
of that input is the zero `ParameterInput`, whatever the nested groups
hold. -/
theorem buildCreateRequest_below_paas_zero_parameter (d : ResourceData)
    (hlevel : d.level ≠ ServiceInstanceLevelPAAS) :
    ∃ input, buildCreateRequest d = .ret (input, none)
      ∧ input.Parameter = ParameterInput.zero :=
  ⟨createInputBeforeParameter d, buildCreateRequest_not_paas d hlevel,
    (createInputBeforeParameter_frame d).2⟩

/-- Claim C3 at `sampleResourceData`, whose level is `BASIC`. -/
theorem buildCreateRequest_below_paas_zero_parameter_witness :
    ∃ input, buildCreateRequest sampleResourceData = .ret (input, none)
      ∧ input.Parameter = ParameterInput.zero :=
  buildCreateRequest_below_paas_zero_parameter sampleResourceData (by decide)

/-- Claim C4 fails as stated: with a client whose `CreateServiceInstance`
succeeds and whose `GetServiceInstance` fails with a server error, the create
operation returns the read error, and the resource ID, empty before the call,
is `db1` after it. -/
theorem create_read_failure_sets_id :
    (resourceOPAASDatabaseServiceInstanceCreate sampleResourceData readFailingMeta).result
        = .err (fmtErrorf
            "Error reading database service instance db1: 500: Internal Server Error")
      ∧ (resourceOPAASDatabaseServiceInstanceCreate sampleResourceData readFailingMeta).d.id
        = "db1"
      ∧ sampleResourceData.id = "" := by
  decide

/-- An error returned by the create operation comes either with the resource
data as it was, or from the trailing read after `CreateServiceInstance` had
answered with a record and no error. -/
theorem create_error_cases (d : ResourceData) (meta : Meta) (e : GoError)
    (herr : (resourceOPAASDatabaseServiceInstanceCreate d meta).result = .err e) :
    (resourceOPAASDatabaseServiceInstanceCreate d meta).d = d
      ∨ ∃ client input info,
          meta.getDatabaseClient = .ok client
            ∧ buildCreateRequest d = .ret (input, none)
            ∧ client.CreateServiceInstance input = (some info, none)
            ∧ (resourceOPAASDatabaseServiceInstanceRead (d.SetId info.Name) meta).result
              = .err e
            ∧ (resourceOPAASDatabaseServiceInstanceCreate d meta).d
              = { d with id := info.Name } := by
  cases hc : meta.getDatabaseClient with
  | error err =>
    left
    unfold resourceOPAASDatabaseServiceInstanceCreate
    rw [hc]
  | ok client =>
    rw [create_cases d meta client hc] at herr ⊢
    cases hb : buildCreateRequest d with
    | panic reason => exact Or.inl rfl
    | ret r =>
      obtain ⟨input, eb⟩ := r
      cases eb with
      | some err => exact Or.inl rfl
      | none =>
        rw [hb] at herr
        simp only [] at herr ⊢
        cases hcr : client.CreateServiceInstance input with
        | mk info ec =>
          cases ec with
          | some err => cases info <;> exact Or.inl rfl
          | none =>
            cases info with
            | none => exact Or.inl rfl
            | some info =>
              right
              rw [hcr] at herr
              simp only [] at herr
              exact ⟨client, input, info, rfl, rfl, hcr, herr,
                (read_error_keeps (d.SetId info.Name) meta e herr).1⟩

/-- Claim C4, amended: when the create operation returns an error and
`CreateServiceInstance` had answered with a record and no error, the error is
the one of the trailing read and the resource data is the old one with the
resource ID set to the `Name` of that record; when the create operation
returns an error and `CreateServiceInstance` had not so answered, the
resource data is the same as before the call. -/
theorem create_error_resource_data (d : ResourceData) (meta : Meta) (e : GoError)
    (herr : (resourceOPAASDatabaseServiceInstanceCreate d meta).result = .err e) :
    (∀ client input info,
        meta.getDatabaseClient = .ok client →
        buildCreateRequest d = .ret (input, none) →
        client.CreateServiceInstance input = (some info, none) →
        (resourceOPAASDatabaseServiceInstanceCreate d meta).d = { d with id := info.Name }
          ∧ (resourceOPAASDatabaseServiceInstanceRead (d.SetId info.Name) meta).result
            = .err e)
      ∧ ((¬ ∃ client input info,
            meta.getDatabaseClient = .ok client
              ∧ buildCreateRequest d = .ret (input, none)
              ∧ client.CreateServiceInstance input = (some info, none)) →
          (resourceOPAASDatabaseServiceInstanceCreate d meta).d = d) := by
  constructor
  · intro client input info hc hb hcr
    rw [create_cases d meta client hc, hb] at herr ⊢
    simp only [] at herr ⊢
    rw [hcr] at herr ⊢
    simp only [] at herr ⊢
    exact ⟨(read_error_keeps (d.SetId info.Name) meta e herr).1, herr⟩
  · intro hnone
    rcases create_error_cases d meta e herr with h | ⟨client, input, info, hc, hb, hcr, _, _⟩
    · exact h
    · exact absurd ⟨client, input, info, hc, hb, hcr⟩ hnone

/-- Claim C4, amended, at the create whose trailing read fails: the resource
ID is the name of the created instance. -/
theorem create_error_resource_data_witness :
    (resourceOPAASDatabaseServiceInstanceCreate sampleResourceData readFailingMeta).d
        = { sampleResourceData with id := "db1" }
      ∧ (resourceOPAASDatabaseServiceInstanceRead
          (sampleResourceData.SetId "db1") readFailingMeta).result
        = .err (fmtErrorf
            "Error reading database service instance db1: 500: Internal Server Error") :=
  (create_error_resource_data sampleResourceData readFailingMeta
    (fmtErrorf "Error reading database service instance db1: 500: Internal Server Error")
    (by decide)).1 readFailingClient (createInputBeforeParameter sampleResourceData)
    { sampleServiceInstance with Name := "db1" } rfl (by decide) (by decide)

/-- With the client obtained, `level = PAAS` and `expandParameter` returning
an error, the create operation returns exactly that error, makes no call to
the client, and leaves the resource data as it was. -/
theorem create_validation_error_aborts (d : ResourceData) (meta : Meta)
    (client : ServiceInstanceClient)
    (parameter : ParameterInput) (err : GoError)
    (hc : meta.getDatabaseClient = .ok client)
    (hlevel : d.level = ServiceInstanceLevelPAAS)
    (hp : expandParameter d = .ret (parameter, some err)) :
    resourceOPAASDatabaseServiceInstanceCreate d meta
      = { d := d, calls := [], result := .err err } := by
  rw [create_cases d meta client hc, buildCreateRequest_paas d hlevel, hp]

/-- Claim C5 fails as stated: `ossWithoutBackupsConfig` has `level = PAAS` and
`expandParameter` returns the backups-required error on it, yet with a
`getDatabaseClient` that fails the create operation returns the error of
`getDatabaseClient`, which is another error. -/
theorem create_without_client_returns_client_error :
    ossWithoutBackupsConfig.level = ServiceInstanceLevelPAAS
      ∧ expandParameter ossWithoutBackupsConfig
        = .ret (parameterFromAttrs
            { sampleDatabaseConfiguration with backup_destination := "OSS" },
          some backupsRequiredError)
      ∧ (resourceOPAASDatabaseServiceInstanceCreate ossWithoutBackupsConfig noClientMeta).result
        = .err clientNotInitialized
      ∧ clientNotInitialized ≠ backupsRequiredError := by
  decide

/-- Claim C5, amended: with `level = PAAS` and `expandParameter` returning an
error, the create operation makes no call to the client and leaves the
resource data, the ID included, as it was; it returns exactly the error of
`expandParameter` when `getDatabaseClient` has handed over the client, and the
error of `getDatabaseClient` when it has not. -/
theorem create_validation_error_no_call (d : ResourceData) (meta : Meta)
    (parameter : ParameterInput) (err : GoError)
    (hlevel : d.level = ServiceInstanceLevelPAAS)
    (hp : expandParameter d = .ret (parameter, some err)) :
    (resourceOPAASDatabaseServiceInstanceCreate d meta).d = d
      ∧ (resourceOPAASDatabaseServiceInstanceCreate d meta).calls = []
      ∧ (∀ client, meta.getDatabaseClient = .ok client →
          (resourceOPAASDatabaseServiceInstanceCreate d meta).result = .err err)
      ∧ (∀ e, meta.getDatabaseClient = .error e →
          (resourceOPAASDatabaseServiceInstanceCreate d meta).result = .err e) := by
  cases hc : meta.getDatabaseClient with
  | error e0 =>
    have hrun : resourceOPAASDatabaseServiceInstanceCreate d meta
        = { d := d, calls := [], result := .err e0 } := by
      unfold resourceOPAASDatabaseServiceInstanceCreate
      rw [hc]
    rw [hrun]
    refine ⟨rfl, rfl, ?_, ?_⟩
    · intro client h
      cases h
    · intro e h
      cases h
      rfl
  | ok client =>
    rw [create_validation_error_aborts d meta client parameter err hc hlevel hp]
    refine ⟨rfl, rfl, ?_, ?_⟩
    · intro _ _
      rfl
    · intro e h
      cases h

/-- Claim C5, amended, at `ossWithoutBackupsConfig` with a client at hand. -/
theorem create_validation_error_no_call_witness :
    (resourceOPAASDatabaseServiceInstanceCreate ossWithoutBackupsConfig lookupMeta).d
        = ossWithoutBackupsConfig
      ∧ (resourceOPAASDatabaseServiceInstanceCreate ossWithoutBackupsConfig lookupMeta).calls
        = []
      ∧ (resourceOPAASDatabaseServiceInstanceCreate ossWithoutBackupsConfig lookupMeta).result
        = .err backupsRequiredError :=
  ⟨(create_validation_error_no_call ossWithoutBackupsConfig lookupMeta
      (parameterFromAttrs { sampleDatabaseConfiguration with backup_destination := "OSS" })
      backupsRequiredError (by decide) (by decide)).1,
    (create_validation_error_no_call ossWithoutBackupsConfig lookupMeta
      (parameterFromAttrs { sampleDatabaseConfiguration with backup_destination := "OSS" })
      backupsRequiredError (by decide) (by decide)).2.1,
    (create_validation_error_no_call ossWithoutBackupsConfig lookupMeta
      (parameterFromAttrs { sampleDatabaseConfiguration with backup_destination := "OSS" })
      backupsRequiredError (by decide) (by decide)).2.2.1 lookupClient rfl⟩

/-- Claim C6: with the client obtained, a not-found error from
`GetServiceInstance`, or a nil record without error, makes the read operation
return `nil` with the resource ID set to the empty string and nothing else
assigned; any other error from `GetServiceInstance` is returned, wrapped, and
the resource data, the ID included, is left as it was. -/
theorem read_not_found_clears_id (d : ResourceData) (meta : Meta)
    (client : ServiceInstanceClient)
    (hc : meta.getDatabaseClient = .ok client) :
    (∀ record err, client.GetServiceInstance { Name := d.id } = (record, some err) →
        WasNotFoundError err = true →
        resourceOPAASDatabaseServiceInstanceRead d meta =
          { d := { d with id := "" }, calls := [.get { Name := d.id }], result := .nil })
      ∧ (client.GetServiceInstance { Name := d.id } = (none, none) →
        resourceOPAASDatabaseServiceInstanceRead d meta =
          { d := { d with id := "" }, calls := [.get { Name := d.id }], result := .nil })
      ∧ (∀ record err, client.GetServiceInstance { Name := d.id } = (record, some err) →
        WasNotFoundError err = false →
        resourceOPAASDatabaseServiceInstanceRead d meta =
          { d := d, calls := [.get { Name := d.id }],
            result := .err (fmtErrorf
              ("Error reading database service instance " ++ d.id ++ ": " ++ err.msg)) }) := by
  rw [read_cases d meta client hc]
  refine ⟨?_, ?_, ?_⟩
  · intro record err hget hnf
    rw [hget]
    simp only [hnf, if_true]
    rfl
  · intro hget
    rw [hget]
    rfl
  · intro record err hget hnf
    rw [hget]
    simp only [hnf, Bool.false_eq_true, if_false]

/-- Claim C6 at `lookupClient`, for an instance that is not found, one
answered by a nil record, and one answered by a server error. -/
theorem read_not_found_clears_id_witness :
    resourceOPAASDatabaseServiceInstanceRead { sampleResourceData with id := "gone" } lookupMeta
        = { d := { sampleResourceData with id := "" }, calls := [.get { Name := "gone" }],
            result := .nil }
      ∧ resourceOPAASDatabaseServiceInstanceRead { sampleResourceData with id := "void" } lookupMeta
        = { d := { sampleResourceData with id := "" }, calls := [.get { Name := "void" }],
            result := .nil }
      ∧ resourceOPAASDatabaseServiceInstanceRead { sampleResourceData with id := "broken" }
          lookupMeta
        = { d := { sampleResourceData with id := "broken" },
            calls := [.get { Name := "broken" }],
            result := .err (fmtErrorf
              "Error reading database service instance broken: 500: Internal Server Error") } :=
  ⟨(read_not_found_clears_id { sampleResourceData with id := "gone" } lookupMeta lookupClient rfl).1
      none notFoundError (by decide) (by decide),
    (read_not_found_clears_id { sampleResourceData with id := "void" } lookupMeta lookupClient rfl).2.1 (by decide),
    (read_not_found_clears_id { sampleResourceData with id := "broken" } lookupMeta lookupClient rfl).2.2
      none serverError (by decide) (by decide)⟩

/-- Claim C7: a parameter that `expandParameter` returns with the `nil` error
never has a hybrid-DR field set (`HDG`, or a non-empty
`HDGCloudStorageContainer`, `HDGCloudStorageUser` or
`HDGCloudStoragePassword`) together with `FailoverDatabase` or `IsRAC`. -/
theorem expandParameter_hdg_exclusive (d : ResourceData) (p : ParameterInput)
    (h : expandParameter d = .ret (p, none)) :
    ¬ ((p.HDG = true ∨ p.HDGCloudStorageContainer ≠ "" ∨ p.HDGCloudStorageUser ≠ ""
          ∨ p.HDGCloudStoragePassword ≠ "")
        ∧ (p.FailoverDatabase = true ∨ p.IsRAC = true)) := by
  cases hcfg : d.database_configuration with
  | nil =>
    unfold expandParameter at h
    rw [hcfg] at h
    cases h
  | cons attrs rest =>
    rw [expandParameter_cons d attrs rest hcfg] at h
    have hi := expandIbkup_keeps d (parameterFromAttrs attrs)
    have hb := expandBackups_keeps d (expandIbkup d (parameterFromAttrs attrs))
    have hf := parameterFromAttrs_fields attrs
    generalize expandIbkup d (parameterFromAttrs attrs) = q1 at h hi hb
    generalize hq2 : expandBackups d q1 = r at h hb
    obtain ⟨q2, e⟩ := r
    cases e with
    | some err => cases h
    | none =>
      simp only [Exec.ret.injEq, Prod.mk.injEq, and_true] at h
      have hz : q2.HDG = false ∧ q2.HDGCloudStorageContainer = ""
          ∧ q2.HDGCloudStorageUser = "" ∧ q2.HDGCloudStoragePassword = "" :=
        ⟨hb.2.2.1.trans (hi.2.2.2.1.trans hf.2.2.2.1),
          hb.2.2.2.1.trans (hi.2.2.2.2.1.trans hf.2.2.2.2.1),
          hb.2.2.2.2.1.trans (hi.2.2.2.2.2.1.trans hf.2.2.2.2.2.1),
          hb.2.2.2.2.2.trans (hi.2.2.2.2.2.2.trans hf.2.2.2.2.2.2)⟩
      have hx := expandHDG_exclusive d q2 hz
      rw [h] at hx
      rintro ⟨hhdg, hexcl⟩
      obtain ⟨h1, h2, h3, h4⟩ := hx hexcl
      rcases hhdg with hh | hh | hh | hh
      · rw [h1] at hh
        cases hh
      · exact hh h2
      · exact hh h3
      · exact hh h4

/-- Claim C7 at `hdgConfig`, whose parameter has the hybrid-DR fields set. -/
theorem expandParameter_hdg_exclusive_witness :
    (expandHDG hdgConfig (parameterFromAttrs sampleDatabaseConfiguration)).1.HDG = true
      ∧ ¬ (((expandHDG hdgConfig (parameterFromAttrs sampleDatabaseConfiguration)).1.HDG = true
            ∨ (expandHDG hdgConfig
                (parameterFromAttrs sampleDatabaseConfiguration)).1.HDGCloudStorageContainer ≠ ""
            ∨ (expandHDG hdgConfig
                (parameterFromAttrs sampleDatabaseConfiguration)).1.HDGCloudStorageUser ≠ ""
            ∨ (expandHDG hdgConfig
                (parameterFromAttrs sampleDatabaseConfiguration)).1.HDGCloudStoragePassword ≠ "")
          ∧ ((expandHDG hdgConfig
                (parameterFromAttrs sampleDatabaseConfiguration)).1.FailoverDatabase = true
            ∨ (expandHDG hdgConfig
                (parameterFromAttrs sampleDatabaseConfiguration)).1.IsRAC = true)) :=
  ⟨by decide,
    expandParameter_hdg_exclusive hdgConfig
      (expandHDG hdgConfig (parameterFromAttrs sampleDatabaseConfiguration)).1 (by decide)⟩

/-- What the assignment block of the read operation and
`setAttributesFromConfig` do store: the `database_configuration` group, and
with it its `disaster_recovery` value, is the one from before the read,
`d.Get` of `disaster_recovery` reads what it read before, and each of the
twenty assigned keys that is a top-level key of the schema holds the field of
the record. -/
theorem applyServiceInstanceRecord_mirrors (d : ResourceData) (result : ServiceInstance) :
    (applyServiceInstanceRecord d result).database_configuration = d.database_configuration
      ∧ (applyServiceInstanceRecord d result).Get "disaster_recovery" = d.Get "disaster_recovery"
      ∧ (applyServiceInstanceRecord d result).name = result.Name
      ∧ (applyServiceInstanceRecord d result).region = result.Region
      ∧ (applyServiceInstanceRecord d result).description = result.Description
      ∧ (applyServiceInstanceRecord d result).edition = result.Edition
      ∧ (applyServiceInstanceRecord d result).level = result.Level
      ∧ (applyServiceInstanceRecord d result).shape = result.Shape
      ∧ (applyServiceInstanceRecord d result).subnet = result.Subnet
      ∧ (applyServiceInstanceRecord d result).subscription_type = result.SubscriptionType
      ∧ (applyServiceInstanceRecord d result).version = result.Version
      ∧ (applyServiceInstanceRecord d result).byol = result.IsBYOL
      ∧ (applyServiceInstanceRecord d result).high_performance_storage
          = result.UseHighPerformanceStorage
      ∧ (applyServiceInstanceRecord d result).uri = result.URI
      ∧ (applyServiceInstanceRecord d result).identity_domain = result.IdentityDomain
      ∧ (applyServiceInstanceRecord d result).availability_domain = result.AvailabilityDomain
      ∧ (applyServiceInstanceRecord d result).cloud_storage_container
          = result.CloudStorageContainer
      ∧ (applyServiceInstanceRecord d result).compute_site_name = result.ComputeSiteName
      ∧ (applyServiceInstanceRecord d result).dbaas_monitor_url = result.DBAASMonitorURL
      ∧ (applyServiceInstanceRecord d result).em_url = result.EMURL
      ∧ (applyServiceInstanceRecord d result).glassfish_url = result.GlassFishURL
      ∧ (applyServiceInstanceRecord d result).ip_network = result.IPNetwork := by
  rw [applyServiceInstanceRecord_eq]
  exact ⟨rfl, rfl, rfl, rfl, rfl, rfl, rfl, rfl, rfl, rfl, rfl, rfl, rfl, rfl, rfl, rfl, rfl,
    rfl, rfl, rfl, rfl, rfl⟩

/-- The eight assigned keys that are not top-level keys of the schema read as
`nil` after the assignment block, whatever the record holds, and the nested
groups of the resource data are the ones from before the read: the fields the
record has for these keys are stored nowhere. -/
theorem applyServiceInstanceRecord_rejected (d : ResourceData) (result : ServiceInstance) :
    (applyServiceInstanceRecord d result).Get "backup_destination" = .nil
      ∧ (applyServiceInstanceRecord d result).Get "character_set" = .nil
      ∧ (applyServiceInstanceRecord d result).Get "connect_descriptor" = .nil
      ∧ (applyServiceInstanceRecord d result).Get "failover_database" = .nil
      ∧ (applyServiceInstanceRecord d result).Get "national_character_set" = .nil
      ∧ (applyServiceInstanceRecord d result).Get "pdb_name" = .nil
      ∧ (applyServiceInstanceRecord d result).Get "sid" = .nil
      ∧ (applyServiceInstanceRecord d result).Get "timezone" = .nil
      ∧ (applyServiceInstanceRecord d result).database_configuration = d.database_configuration
      ∧ (applyServiceInstanceRecord d result).instantiate_from_backup
          = d.instantiate_from_backup
      ∧ (applyServiceInstanceRecord d result).backups = d.backups
      ∧ (applyServiceInstanceRecord d result).hybrid_disaster_recovery
          = d.hybrid_disaster_recovery := by
  obtain ⟨n1, n2, n3, n4, n5, n6, n7, n8, _⟩ := SchemaKey.ofString_rejected
  rw [applyServiceInstanceRecord_eq]
  refine ⟨?_, ?_, ?_, ?_, ?_, ?_, ?_, ?_, rfl, rfl, rfl, rfl⟩ <;>
    simp only [ResourceData.Get, n1, n2, n3, n4, n5, n6, n7, n8]

/-- Claim C8, at a failing input: the record `driftedServiceInstance` reports
the backup destination `BOTH`; after the assignment block and
`setAttributesFromConfig` on `sampleResourceData` the mirrored key `name`
holds the field of the record, but `backup_destination`, which the block
assigns as well, reads as `nil`, and the `database_configuration` group still
has the destination `NONE` of before the read. -/
theorem applyServiceInstanceRecord_drops_backup_destination :
    driftedServiceInstance.BackupDestination = "BOTH"
      ∧ (applyServiceInstanceRecord sampleResourceData driftedServiceInstance).name
        = driftedServiceInstance.Name
      ∧ (applyServiceInstanceRecord sampleResourceData driftedServiceInstance).Get
          "backup_destination" = .nil
      ∧ (applyServiceInstanceRecord sampleResourceData
          driftedServiceInstance).database_configuration = [sampleDatabaseConfiguration]
      ∧ sampleDatabaseConfiguration.backup_destination = "NONE" := by
  rw [applyServiceInstanceRecord_eq]
  exact ⟨rfl, rfl, rfl, rfl, rfl⟩

/-- Claim C9: with the `instantiate_from_backup` group present, `expandIbkup`
sets `IBKUP`, takes `IBKUPDatabaseID` from `cloud_storage_container` and
`IBKUPOnPremise` from `on_premise`; with the group absent it returns the
parameter as it was; in both cases the function is total, returns no error,
and resetting the eight `IBKUP` fields gives the parameter back, so no other
field is written. -/
theorem expandIbkup_maps_group (d : ResourceData) (p : ParameterInput) :
    (∀ attrs rest, d.instantiate_from_backup = attrs :: rest →
        (expandIbkup d p).IBKUP = true
          ∧ (expandIbkup d p).IBKUPDatabaseID = attrs.cloud_storage_container
          ∧ (expandIbkup d p).IBKUPOnPremise = attrs.on_premise)
      ∧ (d.instantiate_from_backup = [] → expandIbkup d p = p)
      ∧ { expandIbkup d p with
          IBKUP := p.IBKUP
          IBKUPDatabaseID := p.IBKUPDatabaseID
          IBKUPOnPremise := p.IBKUPOnPremise
          IBKUPCloudStorageUser := p.IBKUPCloudStorageUser
          IBKUPCloudStoragePassword := p.IBKUPCloudStoragePassword
          IBKUPDecryptionKey := p.IBKUPDecryptionKey
          IBKUPServiceID := p.IBKUPServiceID
          IBKUPWalletFileContent := p.IBKUPWalletFileContent } = p := by
  refine ⟨fun attrs rest h => expandIbkup_present d p attrs rest h, ?_, expandIbkup_frame d p⟩
  intro h
  unfold expandIbkup
  rw [h]

/-- Claim C9 at `ibkupConfig`, whose `cloud_storage_container` and
`database_id` differ. -/
theorem expandIbkup_maps_group_witness :
    (expandIbkup ibkupConfig ParameterInput.zero).IBKUP = true
      ∧ (expandIbkup ibkupConfig ParameterInput.zero).IBKUPDatabaseID = "Storage-dom/backups"
      ∧ (expandIbkup ibkupConfig ParameterInput.zero).IBKUPOnPremise = true :=
  (expandIbkup_maps_group ibkupConfig ParameterInput.zero).1 sampleInstantiateFromBackup [] rfl

/-- Claim C10: in the input the request part of the create operation returns,
`EnableNotification` is true exactly when `notification_email` is a non-empty
string; then `NotificationEmail` is that string, and otherwise
`EnableNotification` is false and `NotificationEmail` is empty. -/
theorem buildCreateRequest_notification (d : ResourceData)
    (input : CreateServiceInstanceInput) (e : Option GoError)
    (h : buildCreateRequest d = .ret (input, e)) :
    (input.EnableNotification = true ↔ d.notification_email ≠ "")
      ∧ (d.notification_email ≠ "" → input.NotificationEmail = d.notification_email)
      ∧ (d.notification_email = "" →
          input.EnableNotification = false ∧ input.NotificationEmail = "") := by
  obtain ⟨parameter, rfl⟩ := buildCreateRequest_input d input e h
  obtain ⟨hen, hmail⟩ := createInputBeforeParameter_notification d
  refine ⟨?_, fun _ => hmail, fun hempty => ⟨?_, hmail.trans hempty⟩⟩
  · show (createInputBeforeParameter d).EnableNotification = true ↔ _
    rw [hen, decide_eq_true_iff]
  · show (createInputBeforeParameter d).EnableNotification = false
    rw [hen, decide_eq_false_iff_not]
    exact not_not.mpr hempty

/-- Claim C10 at `notifiedConfig`. -/
theorem buildCreateRequest_notification_witness :
    (createInputBeforeParameter notifiedConfig).EnableNotification = true
      ∧ (createInputBeforeParameter notifiedConfig).NotificationEmail = "dba@example.com" :=
  ⟨(buildCreateRequest_notification notifiedConfig (createInputBeforeParameter notifiedConfig)
      none (by decide)).1.mpr (by decide),
    (buildCreateRequest_notification notifiedConfig (createInputBeforeParameter notifiedConfig)
      none (by decide)).2.1 (by decide)⟩

/-- With a destination that is neither `BOTH` nor `OSS`, compared exactly,
`expandBackups` returns the `nil` error, with or without a `backups`
group. -/
theorem expandBackups_no_error (d : ResourceData) (p : ParameterInput)
    (hdest : ¬ (p.BackupDestination = ServiceInstanceBackupDestinationBoth
      ∨ p.BackupDestination = ServiceInstanceBackupDestinationOSS)) :
    (expandBackups d p).2 = none := by
  unfold expandBackups
  simp only []
  split
  · rename_i hcond
    exact absurd hcond.1 hdest
  · repeat' split
    all_goals rfl

/-- With a `backup_destination` that is not exactly `OSS` or `BOTH`,
`expandParameter` returns the `nil` error, whatever the `backups` group
holds. -/
theorem expandParameter_no_error_unless_exact (d : ResourceData)
    (attrs : DatabaseConfiguration) (rest : List DatabaseConfiguration)
    (hcfg : d.database_configuration = attrs :: rest)
    (hoss : attrs.backup_destination ≠ ServiceInstanceBackupDestinationOSS)
    (hboth : attrs.backup_destination ≠ ServiceInstanceBackupDestinationBoth) :
    ∃ p, expandParameter d = .ret (p, none) := by
  have hq : (expandIbkup d (parameterFromAttrs attrs)).BackupDestination
      = attrs.backup_destination :=
    (expandIbkup_keeps d _).1.trans (parameterFromAttrs_fields attrs).1
  have hno := expandBackups_no_error d (expandIbkup d (parameterFromAttrs attrs))
    (by rw [hq]; exact fun h => h.elim hboth hoss)
  rw [expandParameter_cons d attrs rest hcfg]
  generalize expandBackups d (expandIbkup d (parameterFromAttrs attrs)) = r at hno
  obtain ⟨q, e⟩ := r
  cases hno
  exact ⟨_, rfl⟩

/-- Claim C11: the validators of `level` and `backup_destination` ignore case
while the mapper compares exactly.  The configuration with `level = "paas"`,
`backup_destination = "OSS"` and no `backups` group passes both validators,
and its request is built without error and with the zero `Parameter`.  The
configuration with `level = "PAAS"`, `backup_destination = "oss"` and no
`backups` group passes both validators too, and its request is built without
error, with `"oss"` as the destination of its parameter.  In both cases the
create operation goes on to the client and returns `nil`, whereas the same
configuration spelled `PAAS` and `OSS` is stopped by the backups-required
error. -/
theorem validators_ignore_case_mapper_exact :
    (validLevelAndBackupDestination lowerCaseLevelConfig = true
        ∧ lowerCaseLevelConfig.backups = []
        ∧ buildCreateRequest lowerCaseLevelConfig
          = .ret (createInputBeforeParameter lowerCaseLevelConfig, none)
        ∧ (createInputBeforeParameter lowerCaseLevelConfig).Parameter = ParameterInput.zero
        ∧ (resourceOPAASDatabaseServiceInstanceCreate lowerCaseLevelConfig lookupMeta).result
          = .nil)
      ∧ (validLevelAndBackupDestination lowerCaseDestinationConfig = true
        ∧ lowerCaseDestinationConfig.backups = []
        ∧ (∃ input, buildCreateRequest lowerCaseDestinationConfig = .ret (input, none)
            ∧ input.Parameter.BackupDestination = "oss")
        ∧ (resourceOPAASDatabaseServiceInstanceCreate lowerCaseDestinationConfig
            lookupMeta).result = .nil)
      ∧ (validLevelAndBackupDestination ossWithoutBackupsConfig = true
        ∧ resourceOPAASDatabaseServiceInstanceCreate ossWithoutBackupsConfig lookupMeta
          = { d := ossWithoutBackupsConfig, calls := [],
              result := .err backupsRequiredError }) := by
  refine ⟨⟨by decide, rfl, by decide, by decide, by decide⟩,
    ⟨by decide, rfl, ⟨_, rfl, by decide⟩, by decide⟩, ⟨by decide, by decide⟩⟩

end Oraclepaas
